import Mathlib

/-!
Verification of the data-loading and dashboard-metric logic of the
Ethiopia financial-inclusion forecasting repository.

The Python code is shallowly embedded: Python strings are lists of
code points (`Str := List Nat`), pandas DataFrames are a structure of
an index, a column-name list and a row list, and each pandas operation
used by the source is translated to an executable Lean function.
-/

/-- A Python string, as its list of Unicode code points. -/
abbrev Str := List Nat

/-- Code points of a Lean string literal, used to write `Str` constants. -/
def strL (s : String) : Str := s.data.map Char.toNat

/-- Whitespace code points stripped by Python `str.strip()`
(space, tab, newline, vertical tab, form feed, carriage return). -/
def isWsC (c : Nat) : Bool := c = 32 || c = 9 || c = 10 || c = 11 || c = 12 || c = 13

/-- ASCII lowercasing of one code point, the effect of Python `str.lower()`
on the ASCII range the repository's column names live in. -/
def lowerC (c : Nat) : Nat := if 65 ≤ c ∧ c ≤ 90 then c + 32 else c

/-- Python `str.lstrip()`: drop leading whitespace. -/
def lstripL (l : Str) : Str := l.dropWhile isWsC

/-- Python `str.rstrip()`: drop trailing whitespace. -/
def rstripL (l : Str) : Str := (l.reverse.dropWhile isWsC).reverse

/-- Python `str.strip()`: drop leading and trailing whitespace. -/
def stripL (l : Str) : Str := rstripL (lstripL l)

/-- The column-name cleaning of `load_unified_data`:
`df.columns.str.strip().str.lower()` applied to one name. -/
def normName (l : Str) : Str := (stripL l).map lowerC

/-- The column-name cleaning applied to a whole column list
(`df.columns = df.columns.str.strip().str.lower()`). -/
def normCols (cols : List Str) : List Str := cols.map normName

theorem lowerC_idem (c : Nat) : lowerC (lowerC c) = lowerC c := by
  unfold lowerC
  by_cases h : 65 ≤ c ∧ c ≤ 90
  · rw [if_pos h, if_neg (by omega)]
  · rw [if_neg h, if_neg h]

theorem isWsC_lowerC (c : Nat) : isWsC (lowerC c) = isWsC c := by
  unfold lowerC
  by_cases h : 65 ≤ c ∧ c ≤ 90
  · rw [if_pos h]
    have h1 : isWsC (c + 32) = false := by
      simp only [isWsC, Bool.or_eq_false_iff, decide_eq_false_iff_not]
      omega
    have h2 : isWsC c = false := by
      simp only [isWsC, Bool.or_eq_false_iff, decide_eq_false_iff_not]
      omega
    rw [h1, h2]
  · rw [if_neg h]

theorem dropWhile_dropWhile_self {α : Type} (p : α → Bool) (l : List α) :
    (l.dropWhile p).dropWhile p = l.dropWhile p := by
  induction l with
  | nil => rfl
  | cons a t ih =>
      by_cases h : p a
      · simpa [List.dropWhile_cons, h] using ih
      · simp [List.dropWhile_cons, h]

theorem dropWhile_head_false {α : Type} (p : α → Bool) (l : List α) (a : α)
    (t : List α) (h : l.dropWhile p = a :: t) : p a = false := by
  induction l with
  | nil => simp at h
  | cons b s ih =>
      by_cases hb : p b
      · exact ih (by simpa [List.dropWhile_cons, hb] using h)
      · rw [List.dropWhile_cons] at h
        simp only [hb] at h
        simp only [Bool.false_eq_true, if_false] at h
        cases h
        simpa using hb

theorem dropWhile_map_comm {α : Type} (p : α → Bool) (f : α → α)
    (hp : ∀ c, p (f c) = p c) (l : List α) :
    (l.map f).dropWhile p = (l.dropWhile p).map f := by
  induction l with
  | nil => rfl
  | cons a t ih =>
      by_cases h : p a
      · simp [List.dropWhile_cons, h, hp, ih]
      · simp [List.dropWhile_cons, h, hp]

/-- The function `rstripL` returns a prefix of its input. -/
theorem rstripL_append (l : Str) :
    l = rstripL l ++ (l.reverse.takeWhile isWsC).reverse := by
  conv_lhs => rw [← l.reverse_reverse, ← List.takeWhile_append_dropWhile (p := isWsC) (l := l.reverse)]
  rw [List.reverse_append]
  rfl

theorem rstripL_rstripL (l : Str) : rstripL (rstripL l) = rstripL l := by
  unfold rstripL
  rw [List.reverse_reverse, dropWhile_dropWhile_self]

theorem lstripL_stripL (l : Str) : lstripL (stripL l) = stripL l := by
  unfold stripL
  rcases hy : lstripL l with _ | ⟨a, t⟩
  · simp [rstripL, lstripL]
  · have ha : isWsC a = false := dropWhile_head_false _ _ _ _ hy
    rcases hr : rstripL (a :: t) with _ | ⟨b, s⟩
    · simp [lstripL]
    · have hpre := rstripL_append (a :: t)
      rw [hr] at hpre
      simp only [List.cons_append] at hpre
      have hb : b = a := by
        injection hpre with h1 h2
        exact h1.symm
      rw [hb]
      unfold lstripL
      rw [List.dropWhile_cons]
      simp [ha]

theorem rstripL_stripL (l : Str) : rstripL (stripL l) = stripL l := by
  unfold stripL
  exact rstripL_rstripL _

theorem stripL_stripL (l : Str) : stripL (stripL l) = stripL l := by
  show rstripL (lstripL (stripL l)) = stripL l
  rw [lstripL_stripL]
  exact rstripL_stripL l

theorem lstripL_map_lowerC (l : Str) :
    lstripL (l.map lowerC) = (lstripL l).map lowerC :=
  dropWhile_map_comm isWsC lowerC isWsC_lowerC l

theorem rstripL_map_lowerC (l : Str) :
    rstripL (l.map lowerC) = (rstripL l).map lowerC := by
  unfold rstripL
  rw [← List.map_reverse, dropWhile_map_comm isWsC lowerC isWsC_lowerC, List.map_reverse]

theorem stripL_map_lowerC (l : Str) :
    stripL (l.map lowerC) = (stripL l).map lowerC := by
  unfold stripL
  rw [lstripL_map_lowerC, rstripL_map_lowerC]

theorem normName_idem (l : Str) : normName (normName l) = normName l := by
  unfold normName
  rw [stripL_map_lowerC, stripL_stripL, List.map_map]
  have : lowerC ∘ lowerC = lowerC := funext lowerC_idem
  rw [this]

/-- A pandas cell value: a string, a missing value (NaN/NaT), an integer,
or a parsed datetime (produced by `pd.to_datetime`). -/
inductive Value where
  | vstr (s : Str)
  | vnull
  | vint (n : Int)
  | vdate (d : Int)
deriving DecidableEq, Repr

open Value

/-- Pandas `astype(str)` on one cell: pandas renders a missing value as the
literal string "nan"; strings stay themselves. -/
def pyStr : Value → Str
  | vstr s => s
  | vnull => strL "nan"
  | vint n => strL (toString n)
  | vdate d => strL (toString d)

/-- A pandas DataFrame: row index labels, column names, and the rows
(each row lists its cell values in column order). -/
structure DataFrame where
  index : List Nat
  cols : List Str
  rows : List (List Value)
deriving DecidableEq, Repr

/-- Position of column `c` in a column list (first match), as pandas
column lookup `df[c]` resolves a name. -/
def colIdx : List Str → Str → Option Nat
  | [], _ => none
  | d :: rest, c => if d = c then some 0 else (colIdx rest c).map (fun n => n + 1)

/-- Membership test `c in df.columns`. -/
def hasCol (df : DataFrame) (c : Str) : Bool := (colIdx df.cols c).isSome

/-- Column read `df[c]`: the value series of column `c`, if the column exists. -/
def getCol (df : DataFrame) (c : Str) : Option (List Value) :=
  match colIdx df.cols c with
  | none => none
  | some i => some (df.rows.map (fun r => r.getD i vnull))

/-- Column read `df[c]` defaulting to an empty series when the column is absent. -/
def getColD (df : DataFrame) (c : Str) : List Value := (getCol df c).getD []

/-- Column write `df[c] = df[c].map f`: overwrite column `c` cell-wise with `f`. -/
def setCol (df : DataFrame) (c : Str) (f : Value → Value) : DataFrame :=
  match colIdx df.cols c with
  | none => df
  | some i => ⟨df.index, df.cols, df.rows.map (fun r => r.set i (f (r.getD i vnull)))⟩

/-- Pandas `df.empty`: some axis has length zero. -/
def DataFrame.empty (df : DataFrame) : Bool := df.rows.isEmpty || df.cols.isEmpty

/-- The assignment `df.columns = df.columns.str.strip().str.lower()` (line 197 of
`data_loader.py`). -/
def normalizeColumns (df : DataFrame) : DataFrame := ⟨df.index, normCols df.cols, df.rows⟩

def recordTypeS : Str := strL "record_type"

def impactLinkS : Str := strL "impact_link"

/-- The `record_type` cell of a row (vnull when the column is absent). -/
def rowRT (cols : List Str) (r : List Value) : Value :=
  match colIdx cols recordTypeS with
  | none => vnull
  | some i => r.getD i vnull

/-- One row after the cleaning step
`df['record_type'] = df['record_type'].astype(str).str.strip().str.lower()`. -/
def cleanRow (cols : List Str) (r : List Value) : List Value :=
  match colIdx cols recordTypeS with
  | none => r
  | some i => r.set i (vstr (normName (pyStr (r.getD i vnull))))

/-- The mask `df['record_type'] == 'impact_link'` evaluated on one row. -/
def isLinkRow (cols : List Str) (r : List Value) : Bool :=
  match colIdx cols recordTypeS with
  | none => false
  | some i => decide (r.getD i vnull = vstr impactLinkS)

/-- The record-type split of `load_unified_data` (lines 217-238):
if `record_type` exists, clean it, partition by the `impact_link` mask
(main keeps the complement), and `reset_index(drop=True)` both parts;
otherwise return the whole table as main data and an empty frame. -/
def load_unified_split (df : DataFrame) : DataFrame × DataFrame :=
  if hasCol df recordTypeS then
    let cleaned := df.rows.map (cleanRow df.cols)
    let mainRows := cleaned.filter (fun r => ! isLinkRow df.cols r)
    let linkRows := cleaned.filter (fun r => isLinkRow df.cols r)
    (⟨List.range mainRows.length, df.cols, mainRows⟩,
     ⟨List.range linkRows.length, df.cols, linkRows⟩)
  else
    (df, ⟨[], [], []⟩)

/-- One worksheet of an Excel file: its name and the table it holds
(the probe's 10-row sample exposes the same column set). -/
structure Sheet where
  name : Str
  df : DataFrame
deriving DecidableEq, Repr

/-- The list `possible_sheet_names` of `load_unified_data` (lines 151-154). -/
def possible_sheet_names : List Str :=
  [strL "data", strL "Sheet1", strL "unified_data",
   strL "ethiopia_fi", strL "main", strL "observations"]

/-- The probe of lines 167-169: the sheet sample's (raw) columns contain
`record_type` or `indicator`. -/
def probeMarker (cols : List Str) : Bool :=
  (colIdx cols recordTypeS).isSome || (colIdx cols (strL "indicator")).isSome

/-- Step 1 of sheet resolution (lines 156-161): first priority-list name
that names a sheet of the file, in priority-list order. -/
def findPriority (sheets : List Sheet) : Option Sheet :=
  possible_sheet_names.findSome? (fun p => sheets.find? (fun s => decide (s.name = p)))

/-- Step 2 of sheet resolution (lines 164-175): first sheet in file order
whose sampled columns contain a marker column. -/
def findMarker (sheets : List Sheet) : Option Sheet :=
  sheets.find? (fun s => probeMarker s.df.cols)

/-- The worksheet resolver of `load_unified_data` (lines 146-181):
priority-name match, else marker probe, else the first sheet. -/
def resolveSheet (sheets : List Sheet) : Option Sheet :=
  match findPriority sheets with
  | some s => some s
  | none =>
    match findMarker sheets with
    | some s => some s
    | none => sheets.head?

/-- The raw-file environment a loader run sees: for each logical role,
the worksheets found (none = no file, `FileNotFoundError` territory). -/
structure Env where
  unified : Option (List Sheet)
  refCodes : Option (List Sheet)
  guide : Option (List (Str × DataFrame))
deriving Repr

/-- The exceptions `load_unified_data` can raise. -/
inductive LoadErr where
  | fileNotFound
  | emptyData
deriving DecidableEq, Repr

/-- Model of `DataLoader.load_unified_data` on an Excel file (lines 114-257):
missing file raises; the resolver picks a sheet; an absent or empty
result raises `ValueError`; otherwise column names are cleaned and the
table is split. The `except` block (lines 251-257) logs and re-raises,
so every error reaches the caller. -/
def load_unified_data (env : Env) : Except LoadErr (DataFrame × DataFrame) :=
  match env.unified with
  | none => Except.error LoadErr.fileNotFound
  | some sheets =>
    match resolveSheet sheets with
    | none => Except.error LoadErr.emptyData
    | some s =>
      if s.df.empty then Except.error LoadErr.emptyData
      else Except.ok (load_unified_split (normalizeColumns s.df))

/-- The priority sheet names of `load_reference_codes` (line 290). -/
def ref_sheet_names : List Str :=
  [strL "reference_codes", strL "codes", strL "Sheet1", strL "ref"]

/-- The sheet choice of `load_reference_codes` (lines 289-302): first
priority-named sheet, else the first sheet; no marker probe. -/
def resolveRefSheet (sheets : List Sheet) : Option Sheet :=
  match ref_sheet_names.findSome? (fun p => sheets.find? (fun s => decide (s.name = p))) with
  | some s => some s
  | none => sheets.head?

/-- Model of `DataLoader.load_reference_codes` on an Excel file (lines
259-326): a missing file raises `FileNotFoundError`; an absent or empty
result raises `ValueError`; otherwise column names are cleaned and the
table returned. The `except` block (lines 324-326) logs and re-raises,
so every error reaches the caller. -/
def load_reference_codes (env : Env) : Except LoadErr DataFrame :=
  match env.refCodes with
  | none => Except.error LoadErr.fileNotFound
  | some sheets =>
    match resolveRefSheet sheets with
    | none => Except.error LoadErr.emptyData
    | some s =>
      if s.df.empty then Except.error LoadErr.emptyData
      else Except.ok (normalizeColumns s.df)

/-- Model of `DataLoader.load_additional_data_guide` (lines 328-373): a missing
file raises `FileNotFoundError`, but the surrounding `except` block
(lines 371-373) catches it, logs, and returns the empty dict `{}`. -/
def load_additional_data_guide (env : Env) : List (Str × DataFrame) :=
  match env.guide with
  | none => []
  | some sheets => sheets

/-- Pandas `series.value_counts().to_dict()`: occurrence counts of the non-null
values (dict insertion order abstracted to first-appearance order). -/
def value_counts (vs : List Value) : List (Value × Nat) :=
  let nn := vs.filter (fun v => ! decide (v = vnull))
  nn.dedup.map (fun v => (v, (nn.filter (fun w => decide (w = v))).length))

/-- Pandas `df.isnull().sum().to_dict()`: per column, the count of null cells. -/
def missingValues (df : DataFrame) : List (Str × Nat) :=
  df.cols.enum.map
    (fun p => (p.2, (df.rows.filter (fun r => decide (r.getD p.1 vnull = vnull))).length))

/-- Pandas `df['indicator_code'].nunique()`: distinct non-null values. -/
def nuniqueV (vs : List Value) : Nat :=
  (vs.filter (fun v => ! decide (v = vnull))).dedup.length

/-- Python `s.startswith(pat)` on code-point lists. -/
def startsList : Str → Str → Bool
  | [], _ => true
  | _ :: _, [] => false
  | a :: pr, b :: sr => a == b && startsList pr sr

/-- Python's substring test `pat in s`. -/
def hasSub (pat : Str) : Str → Bool
  | [] => startsList pat []
  | s@(_ :: rest) => startsList pat s || hasSub pat rest

/-- The columns probed for a date range (line 418):
`[col for col in df.columns if 'date' in col.lower()]`. -/
def isDateName (c : Str) : Bool := hasSub (strL "date") (c.map lowerC)

def dateCols (df : DataFrame) : List Str := df.cols.filter isDateName

/-- Model of `pd.to_datetime(v, errors='coerce')` on one cell, for a given
library date parser: parsed values become datetimes, the rest NaT. -/
def coerceDate (parse : Value → Option Int) (v : Value) : Value :=
  match parse v with
  | some d => vdate d
  | none => vnull

/-- The datetimes of a (coerced) series after `.dropna()`. -/
def datesOf (vs : List Value) : List Int :=
  vs.filterMap (fun v => match v with | vdate d => some d | _ => none)

/-- The date-range loop of `validate_data_structure` (lines 420-431):
for each date column in order, overwrite it in the frame with its
coerced parse (`df[date_col] = pd.to_datetime(df[date_col],
errors='coerce')`), and stop at the first column whose valid dates are
non-empty, reporting their min and max. Returns the range found and
the (mutated) frame. -/
def dateRangeLoop (parse : Value → Option Int) :
    DataFrame → List Str → Option (Int × Int) × DataFrame
  | df, [] => (none, df)
  | df, c :: rest =>
    let df2 := setCol df c (coerceDate parse)
    let valid := datesOf (getColD df2 c)
    match valid.min?, valid.max? with
    | some mn, some mx => (some (mn, mx), df2)
    | _, _ => dateRangeLoop parse df2 rest

/-- The validation summary returned by `validate_data_structure`. -/
structure ValidationResults where
  total_records : Nat
  record_type_counts : List (Value × Nat)
  pillar_distribution : List (Value × Nat)
  missing_values : List (Str × Nat)
  date_range : Option (Int × Int)
  unique_indicators : Nat
deriving DecidableEq, Repr

/-- Model of `DataLoader.validate_data_structure` (lines 375-433), with the
library date parser passed explicitly. Because the date-range loop
assigns back into `df`, the (possibly mutated) frame is returned as
the second component to make that side effect explicit. -/
def validate_data_structure (parse : Value → Option Int) (df : DataFrame) :
    ValidationResults × DataFrame :=
  if df.empty then
    (⟨df.rows.length, [], [], [], none, 0⟩, df)
  else
    let rtc := match getCol df recordTypeS with
      | some vs => value_counts vs
      | none => []
    let pil := match getCol df (strL "pillar") with
      | some vs => value_counts vs
      | none => []
    let miss := missingValues df
    let uniq := match getCol df (strL "indicator_code") with
      | some vs => nuniqueV vs
      | none => 0
    let dr := dateRangeLoop parse df (dateCols df)
    (⟨df.rows.length, rtc, pil, miss, dr.1, uniq⟩, dr.2)

/-- A concrete stand-in for the pandas date parser: accepts ISO
`YYYY-MM-DD` strings of digits and already-parsed datetimes; everything
else is unparsable (coerced to NaT). -/
def modelParseDate : Value → Option Int
  | vstr s =>
    match s with
    | [y1, y2, y3, y4, 45, m1, m2, 45, d1, d2] =>
      if [y1, y2, y3, y4, m1, m2, d1, d2].all (fun c => 48 ≤ c && c ≤ 57) then
        some (((((y1 - 48) * 10 + (y2 - 48)) * 10 + (y3 - 48)) * 10 + (y4 - 48)) * 10000
              + ((m1 - 48) * 10 + (m2 - 48)) * 100 + ((d1 - 48) * 10 + (d2 - 48)))
      else none
    | _ => none
  | vdate d => some d
  | _ => none

/-- The digit test of Python number parsing. -/
def isDigitC (c : Nat) : Bool := 48 ≤ c && c ≤ 57

/-- Value of a digit string read in base 10. -/
def digitsVal (l : Str) : Nat := l.foldl (fun acc c => acc * 10 + (c - 48)) 0

/-- Python's `float()` on plain decimal literals (optional sign, digits,
one optional dot), the grammar the dashboard's `Forecast_%` cells use;
anything else raises `ValueError`, modelled as `none`. -/
def pyFloat (s : Str) : Option ℚ :=
  let t := stripL s
  let sp : Bool × Str := match t with
    | 45 :: r => (true, r)
    | 43 :: r => (false, r)
    | _ => (false, t)
  let ip := sp.2.takeWhile (fun c => ! (c == 46))
  let dotPart := sp.2.dropWhile (fun c => ! (c == 46))
  let fp : Option Str := match dotPart with
    | [] => some []
    | 46 :: r => some r
    | _ => none
  match fp with
  | none => none
  | some fp =>
    if ip.all isDigitC && fp.all isDigitC && ! (ip.isEmpty && fp.isEmpty) then
      let mag : ℚ := (digitsVal ip : ℚ) + (digitsVal fp : ℚ) / ((10 : ℚ) ^ fp.length)
      some (if sp.1 then -mag else mag)
    else none

/-- Python `value.replace('%', '')`: remove every percent sign. -/
def stripPct (s : Str) : Str := s.filter (fun c => ! (c == 37))

/-- Evaluating `float(value.replace('%', ''))` on one cell: only a string cell has a
`.replace` method (any other cell raises `AttributeError`, caught by the
surrounding `except`), and the cleaned string must parse as a float. -/
def parseForecastCell : Value → Option ℚ
  | vstr s => pyFloat (stripPct s)
  | _ => none

/-- The row filter of `get_forecast_value`: rows of the forecasts table
with `Indicator == indicator` and `Year == year`. -/
def forecastMatches (df : DataFrame) (i y : Nat) (ind : Str) (yr : Int) :
    List (List Value) :=
  df.rows.filter
    (fun r => decide (r.getD i vnull = vstr ind) && decide (r.getD y vnull = vint yr))

/-- Model of `get_forecast_value` of `dashboard/app.py` (lines 145-155): look up
the `forecasts` table, filter on `Indicator` and `Year`, take the first
`Forecast_%` value, strip `%` and parse. Every failure path — key
absent, column absent (`KeyError`), no matching row (`IndexError` on
`.values[0]`), or parse failure — is caught by the bare `except` and
yields `None`. -/
def get_forecast_value (data : List (Str × DataFrame)) (ind : Str) (yr : Int) :
    Option ℚ :=
  match data.lookup (strL "forecasts") with
  | none => none
  | some df =>
    match colIdx df.cols (strL "Indicator"), colIdx df.cols (strL "Year"),
          colIdx df.cols (strL "Forecast_%") with
    | some i, some y, some f =>
      match forecastMatches df i y ind yr with
      | [] => none
      | r :: _ => parseForecastCell (r.getD f vnull)
    | _, _, _ => none

/-- Modelled from the spec (section 4.1 plus claim C6's reading): a
worksheet resolver whose marker probe checks the *normalized* column
names, i.e. what the resolver would be if column cleaning ran before
the probe's by-name matching. For comparison with `resolveSheet`. -/
def specResolveNormalizedFirst (sheets : List Sheet) : Option Sheet :=
  match findPriority sheets with
  | some s => some s
  | none =>
    match sheets.find? (fun s => probeMarker (normCols s.df.cols)) with
    | some s => some s
    | none => sheets.head?

/-- Modelled from the spec (section 4.4's words, claim C8): the date
range computed from the *first* column whose name contains "date",
with no fallback to later date columns. For comparison with the
validator's loop. -/
def specFirstDateColRange (parse : Value → Option Int) (df : DataFrame) :
    Option (Int × Int) :=
  match dateCols df with
  | [] => none
  | c :: _ =>
    let parsed := (getColD df c).filterMap parse
    match parsed.min?, parsed.max? with
    | some mn, some mx => some (mn, mx)
    | _, _ => none

/-- The date range the validator's loop actually computes, phrased over
the original (pre-mutation) frame: the first date column having at
least one parsable value, with the min and max of its parsed values. -/
def firstParsedRange (parse : Value → Option Int) (df : DataFrame) :
    List Str → Option (Int × Int)
  | [] => none
  | c :: rest =>
    let parsed := (getColD df c).filterMap parse
    match parsed.min?, parsed.max? with
    | some mn, some mx => some (mn, mx)
    | _, _ => firstParsedRange parse df rest

theorem colIdx_get? (cols : List Str) (c : Str) (i : Nat)
    (h : colIdx cols c = some i) : cols.get? i = some c := by
  induction cols generalizing i with
  | nil => simp [colIdx] at h
  | cons d rest ih =>
      rw [colIdx] at h
      by_cases hd : d = c
      · rw [if_pos hd] at h
        injection h with h0
        rw [← h0]
        simpa using hd
      · rw [if_neg hd] at h
        cases hj : colIdx rest c with
        | none => rw [hj] at h; simp at h
        | some j =>
            rw [hj] at h
            simp only [Option.map] at h
            injection h with h0
            rw [← h0]
            simpa using ih j hj

theorem colIdx_lt (cols : List Str) (c : Str) (i : Nat)
    (h : colIdx cols c = some i) : i < cols.length := by
  have := colIdx_get? cols c i h
  exact List.get?_eq_some.mp this |>.1

theorem getD_set_self (l : List Value) (i : Nat) (v d : Value) (h : i < l.length) :
    (l.set i v).getD i d = v := by
  rw [List.getD_eq_getElem?_getD, List.getElem?_set_self h]
  rfl

theorem getD_set_ne (l : List Value) (i j : Nat) (v d : Value) (h : i ≠ j) :
    (l.set i v).getD j d = l.getD j d := by
  rw [List.getD_eq_getElem?_getD, List.getElem?_set_ne h, ← List.getD_eq_getElem?_getD]

/-- Reduction of the split when `record_type` is present. -/
theorem split_eq_of_hasCol (df : DataFrame) (h : hasCol df recordTypeS = true) :
    load_unified_split df =
      (⟨List.range ((df.rows.map (cleanRow df.cols)).filter
          (fun r => ! isLinkRow df.cols r)).length, df.cols,
        (df.rows.map (cleanRow df.cols)).filter (fun r => ! isLinkRow df.cols r)⟩,
       ⟨List.range ((df.rows.map (cleanRow df.cols)).filter
          (fun r => isLinkRow df.cols r)).length, df.cols,
        (df.rows.map (cleanRow df.cols)).filter (fun r => isLinkRow df.cols r)⟩) := by
  unfold load_unified_split
  rw [if_pos h]

/-- The cleaned mask value of one row: matching `impact_link` after
cleaning is matching the trimmed/lowercased string form of the original
`record_type` cell. -/
theorem isLinkRow_cleanRow (cols : List Str) (r : List Value) (i : Nat)
    (hci : colIdx cols recordTypeS = some i) (hlen : cols.length ≤ r.length) :
    isLinkRow cols (cleanRow cols r) =
      decide (normName (pyStr (r.getD i vnull)) = impactLinkS) := by
  have hi : i < r.length := lt_of_lt_of_le (colIdx_lt cols recordTypeS i hci) hlen
  have hclean : cleanRow cols r = r.set i (vstr (normName (pyStr (r.getD i vnull)))) := by
    unfold cleanRow
    rw [hci]
  have hlink : ∀ x : List Value,
      isLinkRow cols x = decide (x.getD i vnull = vstr impactLinkS) := by
    intro x
    unfold isLinkRow
    rw [hci]
  rw [hclean, hlink, getD_set_self _ _ _ _ hi, decide_eq_decide]
  exact ⟨fun hh => by injection hh, fun hh => by rw [hh]⟩

theorem split_counts (df : DataFrame) (h : hasCol df recordTypeS = true) :
    (load_unified_split df).1.rows.length + (load_unified_split df).2.rows.length
      = df.rows.length := by
  rw [split_eq_of_hasCol df h]
  dsimp only
  have := List.length_eq_length_filter_add
    (l := df.rows.map (cleanRow df.cols)) (fun r => isLinkRow df.cols r)
  simp only [List.length_map] at this
  omega

/-- C1: with a `record_type` column, cleaning trims/lowercases the
string form of each record-type cell; the impact-link subset is exactly
the cleaned rows whose value equals "impact_link" and the main subset
is the rest; the subsets are disjoint, their lengths sum to the input
length, each keeps source order (it is a sublist of the cleaned rows,
which are the source rows in order), and both indices are renumbered
contiguously from zero. -/
theorem load_unified_split_partition (df : DataFrame)
    (h : hasCol df recordTypeS = true)
    (hw : ∀ r ∈ df.rows, df.cols.length ≤ r.length) :
    (load_unified_split df).2.rows
        = (df.rows.map (cleanRow df.cols)).filter (fun r => isLinkRow df.cols r) ∧
    (load_unified_split df).1.rows
        = (df.rows.map (cleanRow df.cols)).filter (fun r => ! isLinkRow df.cols r) ∧
    (∀ i, colIdx df.cols recordTypeS = some i →
      ∀ r ∈ df.rows, isLinkRow df.cols (cleanRow df.cols r)
        = decide (normName (pyStr (r.getD i vnull)) = impactLinkS)) ∧
    (load_unified_split df).1.rows.length + (load_unified_split df).2.rows.length
        = df.rows.length ∧
    List.Sublist (load_unified_split df).1.rows (df.rows.map (cleanRow df.cols)) ∧
    List.Sublist (load_unified_split df).2.rows (df.rows.map (cleanRow df.cols)) ∧
    List.Disjoint (load_unified_split df).1.rows (load_unified_split df).2.rows ∧
    (load_unified_split df).1.index = List.range (load_unified_split df).1.rows.length ∧
    (load_unified_split df).2.index = List.range (load_unified_split df).2.rows.length := by
  have hsplit := split_eq_of_hasCol df h
  refine ⟨by rw [hsplit], by rw [hsplit], ?_, split_counts df h, ?_, ?_, ?_, ?_, ?_⟩
  · intro i hci r hr
    exact isLinkRow_cleanRow df.cols r i hci (hw r hr)
  · rw [hsplit]
    exact List.filter_sublist _
  · rw [hsplit]
    exact List.filter_sublist _
  · rw [hsplit]
    intro r hr1 hr2
    have h1 := (List.mem_filter.mp hr1).2
    have h2 := (List.mem_filter.mp hr2).2
    simp only at h1 h2
    rw [h2] at h1
    simp at h1
  · rw [hsplit]
  · rw [hsplit]

/-- The five-row example of the spec: record types
[observation, impact_link, observation, impact_link, observation]. -/
def exDF5 : DataFrame :=
  ⟨[0, 1, 2, 3, 4], [strL "record_type"],
   [[vstr (strL "observation")], [vstr (strL "impact_link")],
    [vstr (strL "observation")], [vstr (strL "impact_link")],
    [vstr (strL "observation")]]⟩

/-- Witness for C1 at the spec's five-row example: 3 main rows, 2
impact-link rows, indices renumbered from zero. -/
theorem load_unified_split_partition_witness :
    (load_unified_split exDF5).1.rows.length + (load_unified_split exDF5).2.rows.length = 5 ∧
    (load_unified_split exDF5).1.rows.length = 3 ∧
    (load_unified_split exDF5).2.rows.length = 2 ∧
    (load_unified_split exDF5).1.index = [0, 1, 2] ∧
    (load_unified_split exDF5).2.index = [0, 1] := by
  have hp := load_unified_split_partition exDF5 (by decide) (by decide)
  refine ⟨hp.2.2.2.1.trans (by decide), by decide, by decide, by decide, by decide⟩

/-- C7: without a `record_type` column the split returns the whole
input table as the main-data subset and an empty impact-link frame,
with no error (the function is total). -/
theorem load_unified_split_no_record_type (df : DataFrame)
    (h : hasCol df recordTypeS = false) :
    load_unified_split df = (df, ⟨[], [], []⟩) := by
  unfold load_unified_split
  rw [if_neg]
  rw [h]
  simp

/-- Witness for C7: a concrete two-row table with only an `indicator`
column passes through unchanged, with an empty impact-link frame. -/
theorem load_unified_split_no_record_type_witness :
    load_unified_split ⟨[0, 1], [strL "indicator"], [[vint 1], [vint 2]]⟩
      = (⟨[0, 1], [strL "indicator"], [[vint 1], [vint 2]]⟩, ⟨[], [], []⟩) :=
  load_unified_split_no_record_type _ (by decide)

/-- C9: the column normalization (strip surrounding whitespace, then
lowercase, applied to every column name) is idempotent on any list of
column names. -/
theorem normCols_idem (cols : List Str) : normCols (normCols cols) = normCols cols := by
  unfold normCols
  rw [List.map_map]
  exact List.map_congr_left (fun a _ => normName_idem a)

/-- C10: a row whose `record_type` cell is missing is string-coerced to
the literal "nan" by the cleaning step, is never matched by the
`impact_link` mask, and always lands in the main-data subset. -/
theorem null_record_type_goes_to_main (df : DataFrame) (r : List Value)
    (h : hasCol df recordTypeS = true)
    (hw : ∀ r' ∈ df.rows, df.cols.length ≤ r'.length)
    (hr : r ∈ df.rows)
    (hnull : rowRT df.cols r = vnull) :
    pyStr vnull = strL "nan" ∧
    isLinkRow df.cols (cleanRow df.cols r) = false ∧
    cleanRow df.cols r ∈ (load_unified_split df).1.rows ∧
    cleanRow df.cols r ∉ (load_unified_split df).2.rows ∧
    (load_unified_split df).1.rows.length + (load_unified_split df).2.rows.length
      = df.rows.length := by
  obtain ⟨i, hci⟩ : ∃ i, colIdx df.cols recordTypeS = some i := by
    unfold hasCol at h
    cases hx : colIdx df.cols recordTypeS with
    | none => rw [hx] at h; simp at h
    | some i => exact ⟨i, rfl⟩
  have hgd : r.getD i vnull = vnull := by
    unfold rowRT at hnull
    rw [hci] at hnull
    exact hnull
  have hfalse : isLinkRow df.cols (cleanRow df.cols r) = false := by
    rw [isLinkRow_cleanRow df.cols r i hci (hw r hr), hgd]
    decide
  have hsplit := split_eq_of_hasCol df h
  have hmemc : cleanRow df.cols r ∈ df.rows.map (cleanRow df.cols) :=
    List.mem_map_of_mem _ hr
  refine ⟨rfl, hfalse, ?_, ?_, split_counts df h⟩
  · rw [hsplit]
    exact List.mem_filter.mpr ⟨hmemc, by rw [hfalse]; rfl⟩
  · rw [hsplit]
    intro hmem
    have := (List.mem_filter.mp hmem).2
    simp only at this
    rw [hfalse] at this
    exact Bool.false_ne_true this

/-- A row set with one null-typed row, for the C10 witness. -/
def exDFnull : DataFrame :=
  ⟨[0, 1], [strL "record_type"], [[vnull], [vstr (strL "impact_link")]]⟩

/-- Witness for C10: the null-typed first row of `exDFnull` is cleaned
to the string "nan" and classified as main data. -/
theorem null_record_type_goes_to_main_witness :
    cleanRow exDFnull.cols [vnull] ∈ (load_unified_split exDFnull).1.rows ∧
    cleanRow exDFnull.cols [vnull] ∉ (load_unified_split exDFnull).2.rows := by
  have hx := null_record_type_goes_to_main exDFnull [vnull]
    (by decide) (by decide) (by decide) (by decide)
  exact ⟨hx.2.2.1, hx.2.2.2.1⟩

/-- C2: the worksheet resolver always yields a sheet on a non-empty
file, and follows the first-match-wins chain: a priority-list hit wins
(regardless of file position), else the first sheet in file order whose
sample shows a marker column, else unconditionally the first sheet. -/
theorem resolveSheet_total (sheets : List Sheet) (h : sheets ≠ []) :
    (resolveSheet sheets).isSome = true ∧
    (∀ s, findPriority sheets = some s → resolveSheet sheets = some s) ∧
    (findPriority sheets = none →
      ∀ s, findMarker sheets = some s → resolveSheet sheets = some s) ∧
    (findPriority sheets = none → findMarker sheets = none →
      resolveSheet sheets = sheets.head?) := by
  unfold resolveSheet
  cases hp : findPriority sheets with
  | some s =>
      refine ⟨rfl, ?_, ?_, ?_⟩
      · intro t ht
        injection ht with h1
        rw [h1]
      · intro hc
        cases hc
      · intro hc
        cases hc
  | none =>
      cases hm : findMarker sheets with
      | some s =>
          refine ⟨rfl, ?_, ?_, ?_⟩
          · intro t ht
            cases ht
          · intro _ t ht
            injection ht with h1
            rw [h1]
          · intro _ hc
            cases hc
      | none =>
          refine ⟨?_, ?_, ?_, fun _ _ => rfl⟩
          · cases sheets with
            | nil => exact absurd rfl h
            | cons a t => rfl
          · intro t ht
            cases ht
          · intro _ t ht
            cases ht

/-- The spec's two-sheet example file: `Sheet1` then `data`. -/
def exSheet1 : Sheet := ⟨strL "Sheet1", ⟨[0], [strL "x"], [[vint 1]]⟩⟩

def exSheetData : Sheet := ⟨strL "data", ⟨[0], [strL "indicator"], [[vint 2]]⟩⟩

/-- Witness for C2 at the spec's example: the priority list
`["data", "Sheet1", ...]` picks the sheet named `data` even though it is
second in the file, and the resolver returns a sheet. -/
theorem resolveSheet_total_witness :
    (resolveSheet [exSheet1, exSheetData]).isSome = true ∧
    resolveSheet [exSheet1, exSheetData] = some exSheetData := by
  have hx := resolveSheet_total [exSheet1, exSheetData] (by decide)
  exact ⟨hx.1, hx.2.1 exSheetData (by decide)⟩

/-- C3: every lookup-miss path of the dashboard's forecast-value
derivation — forecasts table absent, `Indicator`/`Year`/`Forecast_%`
column absent, no row matching the indicator and year, or a value that
fails to parse — yields the explicit unavailable result `none`; the
function is total, so no failure propagates. -/
theorem get_forecast_value_unavailable (data : List (Str × DataFrame))
    (ind : Str) (yr : Int) :
    (data.lookup (strL "forecasts") = none → get_forecast_value data ind yr = none) ∧
    (∀ df, data.lookup (strL "forecasts") = some df →
      ((colIdx df.cols (strL "Indicator") = none ∨
        colIdx df.cols (strL "Year") = none ∨
        colIdx df.cols (strL "Forecast_%") = none) →
          get_forecast_value data ind yr = none) ∧
      (∀ i y f, colIdx df.cols (strL "Indicator") = some i →
          colIdx df.cols (strL "Year") = some y →
          colIdx df.cols (strL "Forecast_%") = some f →
        (forecastMatches df i y ind yr = [] → get_forecast_value data ind yr = none) ∧
        (∀ r rest, forecastMatches df i y ind yr = r :: rest →
          parseForecastCell (r.getD f vnull) = none →
          get_forecast_value data ind yr = none))) := by
  constructor
  · intro h
    unfold get_forecast_value
    rw [h]
  · intro df hdf
    constructor
    · intro hmiss
      rcases hA : colIdx df.cols (strL "Indicator") with _ | i
      · simp only [get_forecast_value, hdf, hA]
      rcases hB : colIdx df.cols (strL "Year") with _ | y
      · simp only [get_forecast_value, hdf, hA, hB]
      rcases hC : colIdx df.cols (strL "Forecast_%") with _ | f
      · simp only [get_forecast_value, hdf, hA, hB, hC]
      rcases hmiss with hx | hx | hx
      · rw [hA] at hx; cases hx
      · rw [hB] at hx; cases hx
      · rw [hC] at hx; cases hx
    · intro i y f hA hB hC
      constructor
      · intro hempty
        simp only [get_forecast_value, hdf, hA, hB, hC, hempty]
      · intro r rest hcons hparse
        simp only [get_forecast_value, hdf, hA, hB, hC, hcons]
        exact hparse

/-- The forecasts table of the C3 witness: it has the expected columns
but no `ACC_OWNERSHIP` row for 2027. -/
def exForecastDF : DataFrame :=
  ⟨[0], [strL "Indicator", strL "Year", strL "Forecast_%"],
   [[vstr (strL "ACC_USAGE"), vint 2026, vstr (strL "38.5%")]]⟩

def exDashData : List (Str × DataFrame) := [(strL "forecasts", exForecastDF)]

/-- Witness for C3 at the spec's example: looking up `ACC_OWNERSHIP`
for 2027 in a forecasts table lacking that row returns `none`. -/
theorem get_forecast_value_unavailable_witness :
    get_forecast_value exDashData (strL "ACC_OWNERSHIP") 2027 = none := by
  have hx := get_forecast_value_unavailable exDashData (strL "ACC_OWNERSHIP") 2027
  exact (((hx.2 exForecastDF (by decide)).2 0 1 2 (by decide) (by decide) (by decide)).1
    (by decide))

/-- Counterexample to C4: `load_additional_data_guide` with the guide
file missing returns the empty dict `{}` (the `except` block at lines
371-373 catches the `FileNotFoundError` and returns `{}` instead of
re-raising), so a missing required input is converted into a silently
returned default value. -/
theorem load_additional_data_guide_swallows_missing_input :
    (Env.mk (some []) (some []) none).guide = none ∧
    load_additional_data_guide (Env.mk (some []) (some []) none) = [] := by
  exact ⟨rfl, rfl⟩

/-- C4 as amended: `load_unified_data` and `load_reference_codes`
re-raise a missing-input failure to their caller, but
`load_additional_data_guide` catches it and returns the empty
mapping. -/
theorem loader_missing_input_policy (env : Env) :
    (env.unified = none → load_unified_data env = Except.error LoadErr.fileNotFound) ∧
    (env.refCodes = none → load_reference_codes env = Except.error LoadErr.fileNotFound) ∧
    (env.guide = none → load_additional_data_guide env = []) := by
  refine ⟨?_, ?_, ?_⟩
  · intro h
    unfold load_unified_data
    rw [h]
  · intro h
    unfold load_reference_codes
    rw [h]
  · intro h
    unfold load_additional_data_guide
    rw [h]

/-- Witness for the amended C4 at the fully-missing environment. -/
theorem loader_missing_input_policy_witness :
    load_unified_data (Env.mk none none none) = Except.error LoadErr.fileNotFound ∧
    load_reference_codes (Env.mk none none none) = Except.error LoadErr.fileNotFound ∧
    load_additional_data_guide (Env.mk none none none) = [] := by
  have hx := loader_missing_input_policy (Env.mk none none none)
  exact ⟨hx.1 rfl, hx.2.1 rfl, hx.2.2 rfl⟩

/-- A two-sheet file separating the resolvers: no priority name, the
first sheet has no marker, the second sheet's raw columns are
`[" RECORD_TYPE "]`-style, i.e. a marker only after normalization. -/
def exSheetPlain : Sheet := ⟨strL "alpha", ⟨[0], [strL "x"], [[vint 1]]⟩⟩

def exSheetRawMarker : Sheet :=
  ⟨strL "beta", ⟨[0], [strL "RECORD_TYPE"], [[vstr (strL "observation")]]⟩⟩

/-- Counterexample to C6: the probe's by-name marker check runs on raw,
un-normalized column names. On this file the source resolver misses the
`RECORD_TYPE` sheet and falls back to the first sheet, while a resolver
that normalized names before matching would pick the second sheet. -/
theorem probe_matches_raw_columns :
    resolveSheet [exSheetPlain, exSheetRawMarker] = some exSheetPlain ∧
    specResolveNormalizedFirst [exSheetPlain, exSheetRawMarker] = some exSheetRawMarker ∧
    exSheetPlain ≠ exSheetRawMarker ∧
    probeMarker [strL "RECORD_TYPE"] = false ∧
    probeMarker (normCols [strL "RECORD_TYPE"]) = true := by
  refine ⟨by decide, by decide, by decide, by decide, by decide⟩

/-- C6 as amended: column names are trimmed and lowercased after
worksheet selection and before the record-type split — the loaded
pipeline applies `load_unified_split` to `normalizeColumns` of the
resolved sheet — while the worksheet-probe marker check operates on the
raw column names. -/
theorem normalization_after_probe_before_split (env : Env) (sheets : List Sheet)
    (s : Sheet) (h1 : env.unified = some sheets) (h2 : resolveSheet sheets = some s)
    (h3 : s.df.empty = false) :
    load_unified_data env
      = Except.ok (load_unified_split (normalizeColumns s.df)) ∧
    findMarker sheets = sheets.find? (fun sh => probeMarker sh.df.cols) := by
  refine ⟨?_, rfl⟩
  simp only [load_unified_data, h1, h2, h3]
  rfl

/-- Witness for the amended C6 at a one-sheet environment. -/
theorem normalization_after_probe_before_split_witness :
    load_unified_data (Env.mk (some [exSheetRawMarker]) none none)
      = Except.ok (load_unified_split (normalizeColumns exSheetRawMarker.df)) := by
  have hx := normalization_after_probe_before_split
    (Env.mk (some [exSheetRawMarker]) none none) [exSheetRawMarker] exSheetRawMarker
    rfl (by decide) (by decide)
  exact hx.1

theorem setCol_cols (df : DataFrame) (c : Str) (f : Value → Value) :
    (setCol df c f).cols = df.cols := by
  unfold setCol
  cases colIdx df.cols c <;> rfl

theorem setCol_index (df : DataFrame) (c : Str) (f : Value → Value) :
    (setCol df c f).index = df.index := by
  unfold setCol
  cases colIdx df.cols c <;> rfl

theorem setCol_rows_length (df : DataFrame) (c : Str) (f : Value → Value) :
    (setCol df c f).rows.length = df.rows.length := by
  unfold setCol
  cases colIdx df.cols c with
  | none => rfl
  | some i => simp

/-- Writing one column leaves every differently-named column's series
unchanged. -/
theorem getCol_setCol_ne (df : DataFrame) (c c' : Str) (f : Value → Value)
    (h : c ≠ c') : getCol (setCol df c f) c' = getCol df c' := by
  cases hci : colIdx df.cols c with
  | none =>
      unfold setCol
      rw [hci]
  | some i =>
      have hsc : setCol df c f
          = ⟨df.index, df.cols, df.rows.map (fun r => r.set i (f (r.getD i vnull)))⟩ := by
        unfold setCol
        rw [hci]
      rw [hsc]
      unfold getCol
      cases hcj : colIdx df.cols c' with
      | none => rfl
      | some j =>
          have hij : i ≠ j := by
            intro heq
            have h1 := colIdx_get? df.cols c i hci
            have h2 := colIdx_get? df.cols c' j hcj
            rw [heq, h2] at h1
            injection h1 with h3
            exact h (h3.symm)
          simp only [List.map_map]
          congr 1
          apply List.map_congr_left
          intro r _
          simp only [Function.comp]
          exact getD_set_ne r i j _ vnull hij

/-- Reduction of one loop step when the probed column has valid dates. -/
theorem dateRangeLoop_cons_found (parse : Value → Option Int) (df : DataFrame)
    (c : Str) (rest : List Str) (mn mx : Int)
    (hmn : (datesOf (getColD (setCol df c (coerceDate parse)) c)).min? = some mn)
    (hmx : (datesOf (getColD (setCol df c (coerceDate parse)) c)).max? = some mx) :
    dateRangeLoop parse df (c :: rest)
      = (some (mn, mx), setCol df c (coerceDate parse)) := by
  simp only [dateRangeLoop]
  rw [hmn, hmx]

/-- Reduction of one loop step when the probed column has no valid
dates: the loop moves on over the already-mutated frame. -/
theorem dateRangeLoop_cons_next (parse : Value → Option Int) (df : DataFrame)
    (c : Str) (rest : List Str)
    (hmn : (datesOf (getColD (setCol df c (coerceDate parse)) c)).min? = none) :
    dateRangeLoop parse df (c :: rest)
      = dateRangeLoop parse (setCol df c (coerceDate parse)) rest := by
  simp only [dateRangeLoop]
  rw [hmn]

/-- The date-range loop only writes date-named columns: frame shape and
all columns outside the scanned list are unchanged. -/
theorem dateRangeLoop_frame (parse : Value → Option Int) (cs : List Str) :
    ∀ df : DataFrame,
      (dateRangeLoop parse df cs).2.cols = df.cols ∧
      (dateRangeLoop parse df cs).2.index = df.index ∧
      (dateRangeLoop parse df cs).2.rows.length = df.rows.length ∧
      (∀ c', c' ∉ cs → getCol (dateRangeLoop parse df cs).2 c' = getCol df c') := by
  induction cs with
  | nil => exact fun df => ⟨rfl, rfl, rfl, fun _ _ => rfl⟩
  | cons c rest ih =>
      intro df
      have hstep : ∀ c', c' ∉ c :: rest → getCol (setCol df c (coerceDate parse)) c' = getCol df c' := by
        intro c' hc'
        exact getCol_setCol_ne df c c' _ (fun he => hc' (he ▸ List.mem_cons_self c rest))
      cases hmn : (datesOf (getColD (setCol df c (coerceDate parse)) c)).min? with
      | some mn =>
          cases hmx : (datesOf (getColD (setCol df c (coerceDate parse)) c)).max? with
          | some mx =>
              rw [dateRangeLoop_cons_found parse df c rest mn mx hmn hmx]
              exact ⟨setCol_cols df c _, setCol_index df c _, setCol_rows_length df c _,
                fun c' hc' => hstep c' hc'⟩
          | none =>
              have : (datesOf (getColD (setCol df c (coerceDate parse)) c)) = [] := by
                cases hl : datesOf (getColD (setCol df c (coerceDate parse)) c) with
                | nil => rfl
                | cons a t => rw [hl] at hmx; simp [List.max?] at hmx
              rw [this] at hmn
              cases hmn
      | none =>
          rw [dateRangeLoop_cons_next parse df c rest hmn]
          obtain ⟨hc1, hc2, hc3, hc4⟩ := ih (setCol df c (coerceDate parse))
          refine ⟨hc1.trans (setCol_cols df c _), hc2.trans (setCol_index df c _),
            hc3.trans (setCol_rows_length df c _), ?_⟩
          intro c' hc'
          rw [hc4 c' (fun hm => hc' (List.mem_cons_of_mem c hm))]
          exact hstep c' hc'

/-- The one-row table with an unparsable `date` cell that exposes the
validator's in-place mutation. -/
def exDateDF : DataFrame := ⟨[0], [strL "date"], [[vstr (strL "junk")]]⟩

/-- Counterexample to C5: `validate_data_structure` is not read-only —
line 422 assigns `pd.to_datetime(df[date_col], errors='coerce')` back
into the caller's frame, so the unparsable `date` cell of `exDateDF` is
overwritten with a missing value. -/
theorem validate_data_structure_mutates :
    (validate_data_structure modelParseDate exDateDF).2 ≠ exDateDF ∧
    (validate_data_structure modelParseDate exDateDF).2.rows = [[vnull]] := by
  refine ⟨by decide, by decide⟩

/-- C5 as amended: the validator leaves the frame's shape (columns,
index, row count) and every column whose name does not contain "date"
unchanged; only date-named columns may be overwritten by the coercing
date parse. -/
theorem validate_data_structure_preserves_non_date (parse : Value → Option Int)
    (df : DataFrame) :
    (validate_data_structure parse df).2.cols = df.cols ∧
    (validate_data_structure parse df).2.index = df.index ∧
    (validate_data_structure parse df).2.rows.length = df.rows.length ∧
    (∀ c, isDateName c = false →
      getCol (validate_data_structure parse df).2 c = getCol df c) := by
  unfold validate_data_structure
  by_cases he : df.empty
  · rw [if_pos he]
    exact ⟨rfl, rfl, rfl, fun _ _ => rfl⟩
  · rw [if_neg he]
    obtain ⟨h1, h2, h3, h4⟩ := dateRangeLoop_frame parse (dateCols df) df
    refine ⟨h1, h2, h3, ?_⟩
    intro c hc
    refine h4 c ?_
    intro hmem
    have := (List.mem_filter.mp hmem).2
    rw [hc] at this
    exact Bool.false_ne_true this

/-- Witness for the amended C5: on a concrete frame with a date column
and an `indicator` column, validation preserves the shape and the
non-date column. -/
theorem validate_preserves_non_date_witness :
    (validate_data_structure modelParseDate
        ⟨[0], [strL "date", strL "indicator"], [[vstr (strL "junk"), vint 7]]⟩).2.cols
      = [strL "date", strL "indicator"] ∧
    getCol (validate_data_structure modelParseDate
        ⟨[0], [strL "date", strL "indicator"], [[vstr (strL "junk"), vint 7]]⟩).2
        (strL "indicator")
      = getCol ⟨[0], [strL "date", strL "indicator"], [[vstr (strL "junk"), vint 7]]⟩
          (strL "indicator") := by
  have hx := validate_data_structure_preserves_non_date modelParseDate
    ⟨[0], [strL "date", strL "indicator"], [[vstr (strL "junk"), vint 7]]⟩
  exact ⟨hx.1, hx.2.2.2 (strL "indicator") (by decide)⟩

theorem getColD_none (df : DataFrame) (c : Str)
    (h : colIdx df.cols c = none) : getColD df c = [] := by
  unfold getColD getCol
  rw [h]
  rfl

theorem setCol_of_none (df : DataFrame) (c : Str) (f : Value → Value)
    (h : colIdx df.cols c = none) : setCol df c f = df := by
  unfold setCol
  rw [h]

theorem getColD_setCol_self (df : DataFrame) (c : Str) (i : Nat) (f : Value → Value)
    (hci : colIdx df.cols c = some i)
    (hw : ∀ r ∈ df.rows, df.cols.length ≤ r.length) :
    getColD (setCol df c f) c = (getColD df c).map f := by
  have hsc : setCol df c f
      = ⟨df.index, df.cols, df.rows.map (fun r => r.set i (f (r.getD i vnull)))⟩ := by
    unfold setCol
    rw [hci]
  unfold getColD getCol
  rw [hsc]
  simp only [hci, Option.getD_some, List.map_map]
  apply List.map_congr_left
  intro r hr
  have hi : i < r.length := lt_of_lt_of_le (colIdx_lt df.cols c i hci) (hw r hr)
  simp only [Function.comp]
  exact getD_set_self r i _ vnull hi

theorem getColD_setCol_ne (df : DataFrame) (c c' : Str) (f : Value → Value)
    (h : c ≠ c') : getColD (setCol df c f) c' = getColD df c' := by
  unfold getColD
  rw [getCol_setCol_ne df c c' f h]

theorem setCol_widths (df : DataFrame) (c : Str) (f : Value → Value)
    (hw : ∀ r ∈ df.rows, df.cols.length ≤ r.length) :
    ∀ r ∈ (setCol df c f).rows, (setCol df c f).cols.length ≤ r.length := by
  intro r hr
  rw [setCol_cols]
  unfold setCol at hr
  cases hci : colIdx df.cols c with
  | none => rw [hci] at hr; exact hw r hr
  | some i =>
      rw [hci] at hr
      simp only [List.mem_map] at hr
      obtain ⟨r0, hr0, rfl⟩ := hr
      rw [List.length_set]
      exact hw r0 hr0

/-- Coercing a series with the date parser and dropping the missing
entries yields exactly the parser's successful values. -/
theorem datesOf_coerce (parse : Value → Option Int) (vs : List Value) :
    datesOf (vs.map (coerceDate parse)) = vs.filterMap parse := by
  induction vs with
  | nil => rfl
  | cons v t ih =>
      cases hv : parse v with
      | none =>
          simp only [List.map_cons, List.filterMap_cons, coerceDate, hv, datesOf] at *
          exact ih
      | some d =>
          simp only [List.map_cons, List.filterMap_cons, coerceDate, hv, datesOf] at *
          rw [ih]

theorem firstParsedRange_congr (parse : Value → Option Int) (cs : List Str)
    (df df' : DataFrame) (h : ∀ c ∈ cs, getColD df c = getColD df' c) :
    firstParsedRange parse df cs = firstParsedRange parse df' cs := by
  induction cs with
  | nil => rfl
  | cons c rest ih =>
      simp only [firstParsedRange]
      rw [h c (List.mem_cons_self c rest)]
      cases ((getColD df' c).filterMap parse).min? <;>
        cases ((getColD df' c).filterMap parse).max? <;>
        simp only [] <;>
        exact ih (fun x hx => h x (List.mem_cons_of_mem c hx))

theorem min?_eq_none_of_max?_eq_none (l : List Int) (h : l.max? = none) :
    l.min? = none := by
  cases l with
  | nil => rfl
  | cons a t => simp [List.max?] at h

/-- The loop's reported range, phrased over the original frame: it is
the first scanned column with at least one parsable value. -/
theorem dateRangeLoop_range (parse : Value → Option Int) (cs : List Str) :
    ∀ df : DataFrame, (∀ r ∈ df.rows, df.cols.length ≤ r.length) → cs.Nodup →
      (dateRangeLoop parse df cs).1 = firstParsedRange parse df cs := by
  induction cs with
  | nil => intro df _ _; rfl
  | cons c rest ih =>
      intro df hw hnd
      have hndr : rest.Nodup := (List.nodup_cons.mp hnd).2
      have hcnr : c ∉ rest := (List.nodup_cons.mp hnd).1
      cases hci : colIdx df.cols c with
      | none =>
          have hdf2 : setCol df c (coerceDate parse) = df := setCol_of_none df c _ hci
          have hvalid : datesOf (getColD (setCol df c (coerceDate parse)) c) = [] := by
            rw [hdf2, getColD_none df c hci]
            rfl
          rw [dateRangeLoop_cons_next parse df c rest (by rw [hvalid]; rfl), hdf2]
          simp only [firstParsedRange, getColD_none df c hci, List.filterMap_nil]
          exact ih df hw hndr
      | some i =>
          have hvalid : datesOf (getColD (setCol df c (coerceDate parse)) c)
              = (getColD df c).filterMap parse := by
            rw [getColD_setCol_self df c i _ hci hw, datesOf_coerce]
          cases hmx : ((getColD df c).filterMap parse).max? with
          | some mx =>
              cases hmn : ((getColD df c).filterMap parse).min? with
              | some mn =>
                  rw [dateRangeLoop_cons_found parse df c rest mn mx
                    (by rw [hvalid]; exact hmn) (by rw [hvalid]; exact hmx)]
                  simp only [firstParsedRange]
                  rw [hmn, hmx]
              | none =>
                  have hl : (getColD df c).filterMap parse = [] := by
                    cases hl2 : (getColD df c).filterMap parse with
                    | nil => rfl
                    | cons a t =>
                        rw [hl2] at hmn
                        simp [List.min?] at hmn
                  rw [hl] at hmx
                  simp [List.max?] at hmx
          | none =>
              have hmn := min?_eq_none_of_max?_eq_none _ hmx
              rw [dateRangeLoop_cons_next parse df c rest (by rw [hvalid]; exact hmn)]
              have hrec := ih (setCol df c (coerceDate parse))
                (setCol_widths df c _ hw) hndr
              rw [hrec]
              have hcg := firstParsedRange_congr parse rest
                (setCol df c (coerceDate parse)) df
                (fun x hx => getColD_setCol_ne df c x _ (fun he => hcnr (he ▸ hx)))
              rw [hcg]
              simp only [firstParsedRange]
              rw [hmn, hmx]

/-- C8 as amended: the validator's detected date range comes from the
*first* date-named column having at least one successfully parsed
value (unparsable values excluded), with fallback to later date-named
columns, and no range when the table is empty or no date column has a
parsed value. -/
theorem validate_data_structure_date_range (parse : Value → Option Int)
    (df : DataFrame)
    (hw : ∀ r ∈ df.rows, df.cols.length ≤ r.length)
    (hnd : (dateCols df).Nodup) :
    (validate_data_structure parse df).1.date_range
      = if df.empty then none else firstParsedRange parse df (dateCols df) := by
  unfold validate_data_structure
  by_cases he : df.empty
  · rw [if_pos he, if_pos he]
  · rw [if_neg he, if_neg he]
    simp only
    exact dateRangeLoop_range parse (dateCols df) df hw hnd

/-- Two date columns: the first entirely unparsable, the second with an
ISO date. -/
def exTwoDateDF : DataFrame :=
  ⟨[0], [strL "date_a", strL "date_b"],
   [[vstr (strL "junk"), vstr (strL "2020-01-15")]]⟩

/-- Counterexample to C8: the code does not stop at the first
date-named column — with `date_a` entirely unparsable it reports the
range of `date_b`, while the claim's first-column rule yields no
range. -/
theorem date_range_skips_unparsable_first_col :
    (validate_data_structure modelParseDate exTwoDateDF).1.date_range
      = some (20200115, 20200115) ∧
    specFirstDateColRange modelParseDate exTwoDateDF = none := by
  refine ⟨by decide, by decide⟩

/-- Witness for the amended C8 at the two-date-column table. -/
theorem validate_data_structure_date_range_witness :
    (validate_data_structure modelParseDate exTwoDateDF).1.date_range
      = if exTwoDateDF.empty then none
        else firstParsedRange modelParseDate exTwoDateDF (dateCols exTwoDateDF) :=
  validate_data_structure_date_range modelParseDate exTwoDateDF (by decide) (by decide)
